import Mathlib

/-
Verification of the 6502 CPU interpreter (src/emulator/src/cpu and src/src/cpu).

Shallow embedding conventions:
- u8 / u16 values are `Nat` with explicit `% 256` / `% 65536` where the source wraps;
- the backing memory array `[u8; u16::MAX as usize]` is a function `Nat → Nat`
  together with the explicit bound 65535 (= u16::MAX) checked at every access,
  so that the Rust out-of-bounds panic becomes `none`;
- fallible paths (array indexing, `expect`, `todo!()`) return `Option`.
-/

set_option linter.unusedVariables false

/-- Size of the backing array in `src/emulator/src/cpu/mod.rs`:
`memory: [u8; u16::MAX as usize]`, i.e. 65535 bytes (not 65536). -/
def MEMORY_LEN : Nat := 65535

/-- The eight named flag bits of `src/emulator/src/cpu/flags.rs`. -/
inductive CpuFlags where
  | CarryBit
  | Zero
  | DisableInterrupts
  | DecimalMode
  | Break
  | Unused
  | Overflow
  | Negative
deriving DecidableEq

/-- Bit value of each flag, from `flags.rs` (`CarryBit = 1 << 0`, ...,
`Negative = 1 << 7`). -/
def CpuFlags.bits : CpuFlags → Nat
  | .CarryBit => 1
  | .Zero => 2
  | .DisableInterrupts => 4
  | .DecimalMode => 8
  | .Break => 16
  | .Unused => 32
  | .Overflow => 64
  | .Negative => 128

/-- All eight flags, in declaration order. -/
def CpuFlags.all : List CpuFlags :=
  [.CarryBit, .Zero, .DisableInterrupts, .DecimalMode, .Break, .Unused, .Overflow, .Negative]

/-- The mask of bits covered by named flags (what `enumflags2` calls
`ALL_BITS`): the union of the eight `CpuFlags.bits` values. -/
def CpuFlags.allBitsMask : Nat := CpuFlags.all.foldr (fun f acc => f.bits ||| acc) 0

/-- Shallow embedding of `enumflags2::BitFlags<CpuFlags>`: since every one of
the eight bit positions of the `u8` carries exactly one named flag, the flag
set is a record of eight booleans. Serialization to/from the backing `u8` is
`toBits` / `ofBits` below. -/
@[ext]
structure BitFlags where
  carryBit : Bool
  zero : Bool
  disableInterrupts : Bool
  decimalMode : Bool
  breakFlag : Bool
  unused : Bool
  overflow : Bool
  negative : Bool
deriving DecidableEq

/-- `BitFlags::default()` is the empty flag set. -/
def BitFlags.default : BitFlags :=
  ⟨false, false, false, false, false, false, false, false⟩

/-- `BitFlags::contains` for a single flag. -/
def BitFlags.contains (s : BitFlags) : CpuFlags → Bool
  | .CarryBit => s.carryBit
  | .Zero => s.zero
  | .DisableInterrupts => s.disableInterrupts
  | .DecimalMode => s.decimalMode
  | .Break => s.breakFlag
  | .Unused => s.unused
  | .Overflow => s.overflow
  | .Negative => s.negative

/-- `BitFlags::set(flag, bool)`. -/
def BitFlags.set (s : BitFlags) : CpuFlags → Bool → BitFlags
  | .CarryBit, b => { s with carryBit := b }
  | .Zero, b => { s with zero := b }
  | .DisableInterrupts, b => { s with disableInterrupts := b }
  | .DecimalMode, b => { s with decimalMode := b }
  | .Break, b => { s with breakFlag := b }
  | .Unused, b => { s with unused := b }
  | .Overflow, b => { s with overflow := b }
  | .Negative, b => { s with negative := b }

/-- `BitFlags::insert`. -/
def BitFlags.insert (s : BitFlags) (f : CpuFlags) : BitFlags := s.set f true

/-- `BitFlags::remove`. -/
def BitFlags.remove (s : BitFlags) (f : CpuFlags) : BitFlags := s.set f false

/-- `BitFlags::bits()`: the backing byte. -/
def BitFlags.toBits (s : BitFlags) : Nat :=
  (if s.carryBit then 1 else 0) + (if s.zero then 2 else 0) +
  (if s.disableInterrupts then 4 else 0) + (if s.decimalMode then 8 else 0) +
  (if s.breakFlag then 16 else 0) + (if s.unused then 32 else 0) +
  (if s.overflow then 64 else 0) + (if s.negative then 128 else 0)

/-- Reading the eight flag booleans out of an in-mask byte. -/
def BitFlags.ofBits (n : Nat) : BitFlags :=
  ⟨n.testBit 0, n.testBit 1, n.testBit 2, n.testBit 3,
   n.testBit 4, n.testBit 5, n.testBit 6, n.testBit 7⟩

/-- `enumflags2::BitFlags::from_bits`: fails exactly when the byte has a bit
set outside the mask of named flags. -/
def BitFlags.from_bits (n : Nat) : Option BitFlags :=
  if n &&& CpuFlags.allBitsMask = n then some (BitFlags.ofBits n) else none

/-- `AddressingMode` from `src/src/cpu/addressing_mode.rs` (the closed
variant set listed in the spec, identical in both crates). -/
inductive AddressingMode where
  | Immediate
  | ZeroPage
  | ZeroPageX
  | ZeroPageY
  | Absolute
  | AbsoluteX
  | AbsoluteY
  | IndirectX
  | IndirectY
  | NoneAddressing
deriving DecidableEq

/-- The CPU state of `src/emulator/src/cpu/mod.rs`. -/
@[ext]
structure Cpu where
  register_a : Nat
  register_x : Nat
  register_y : Nat
  status : BitFlags
  program_counter : Nat
  stack_pointer : Nat
  memory : Nat → Nat

/-- `Cpu::default()`. -/
def Cpu.default : Cpu :=
  { register_a := 0, register_x := 0, register_y := 0, status := BitFlags.default,
    program_counter := 0, stack_pointer := 0, memory := fun _ => 0 }

/-- `mem_read` (`src/emulator/src/cpu/memory.rs`): `self.memory[addr as usize]`.
The array has `MEMORY_LEN` = 65535 entries, so an index of 0xFFFF is out of
bounds (a Rust panic, modelled as `none`). -/
def Cpu.mem_read (cpu : Cpu) (addr : Nat) : Option Nat :=
  if addr < MEMORY_LEN then some (cpu.memory addr) else none

/-- `mem_write`: `self.memory[addr as usize] = data`, same bound. -/
def Cpu.mem_write (cpu : Cpu) (addr : Nat) (data : Nat) : Option Cpu :=
  if addr < MEMORY_LEN then
    some { cpu with memory := fun a => if a = addr then data else cpu.memory a }
  else none

/-- `mem_read_u16`: `u16::from_le_bytes([read(addr), read(addr + 1)])`. -/
def Cpu.mem_read_u16 (cpu : Cpu) (addr : Nat) : Option Nat := do
  let lo ← cpu.mem_read addr
  let hi ← cpu.mem_read (addr + 1)
  pure (lo + 256 * hi)

/-- `mem_write_u16`: writes the low byte at `addr`, the high byte at
`addr + 1`. -/
def Cpu.mem_write_u16 (cpu : Cpu) (addr : Nat) (data : Nat) : Option Cpu := do
  let c ← cpu.mem_write addr (data % 256)
  c.mem_write (addr + 1) (data / 256 % 256)

/-- `get_operand_address` (`src/emulator/src/cpu/memory.rs`); the
`NoneAddressing` arm is `todo!()`, modelled as `none`. -/
def Cpu.get_operand_address (cpu : Cpu) (mode : AddressingMode) : Option Nat :=
  match mode with
  | .Immediate => some cpu.program_counter
  | .ZeroPage => cpu.mem_read cpu.program_counter
  | .Absolute => cpu.mem_read_u16 cpu.program_counter
  | .ZeroPageX => do
      let pos ← cpu.mem_read cpu.program_counter
      pure ((pos + cpu.register_x) % 256)
  | .ZeroPageY => do
      let pos ← cpu.mem_read cpu.program_counter
      pure ((pos + cpu.register_y) % 256)
  | .AbsoluteX => do
      let base ← cpu.mem_read_u16 cpu.program_counter
      pure ((base + cpu.register_x) % 65536)
  | .AbsoluteY => do
      let base ← cpu.mem_read_u16 cpu.program_counter
      pure ((base + cpu.register_y) % 65536)
  | .IndirectX => do
      let base ← cpu.mem_read cpu.program_counter
      let ptr := (base + cpu.register_x) % 256
      let lo ← cpu.mem_read ptr
      let hi ← cpu.mem_read ((ptr + 1) % 256)
      pure ((hi <<< 8) ||| lo)
  | .IndirectY => do
      let base ← cpu.mem_read cpu.program_counter
      let lo ← cpu.mem_read base
      let hi ← cpu.mem_read ((base + 1) % 256)
      pure ((((hi <<< 8) ||| lo) + cpu.register_y) % 65536)
  | .NoneAddressing => none

/-- `stack_pop` (`src/src/cpu/stack.rs`): increment the pointer (wrapping at
8 bits), then read at `0x0100 + stack_pointer`. -/
def Cpu.stack_pop (cpu : Cpu) : Option (Nat × Cpu) :=
  let c : Cpu := { cpu with stack_pointer := (cpu.stack_pointer + 1) % 256 }
  do
    let v ← c.mem_read (0x0100 + c.stack_pointer)
    pure (v, c)

/-- `stack_push`: write at `0x0100 + stack_pointer`, then decrement the
pointer (wrapping at 8 bits; `wrapping_sub 1` is `+ 255 mod 256`). -/
def Cpu.stack_push (cpu : Cpu) (data : Nat) : Option Cpu := do
  let c ← cpu.mem_write (0x0100 + cpu.stack_pointer) data
  pure { c with stack_pointer := (c.stack_pointer + 255) % 256 }

/-- `stack_push_u16`: push the high byte (`data >> 8`), then the low byte
(`data & 0xff`). -/
def Cpu.stack_push_u16 (cpu : Cpu) (data : Nat) : Option Cpu := do
  let c ← cpu.stack_push (data >>> 8)
  c.stack_push (data &&& 0xff)

/-- `stack_pop_u16`: pop the low byte, then the high byte, and reassemble
`hi << 8 | lo`. -/
def Cpu.stack_pop_u16 (cpu : Cpu) : Option (Nat × Cpu) := do
  let (lo, c1) ← cpu.stack_pop
  let (hi, c2) ← c1.stack_pop
  pure ((hi <<< 8) ||| lo, c2)

/-- Pushing a list of bytes in sequence (iterated `stack_push`). -/
def Cpu.stack_push_list (cpu : Cpu) : List Nat → Option Cpu
  | [] => some cpu
  | d :: rest => do
      let c ← cpu.stack_push d
      c.stack_push_list rest

/-- `pop_status_from_stack` (`src/emulator/src/cpu/mod.rs` lines 554-557):
`BitFlags::from_bits(self.stack_pop()).expect(...)`; the `expect` panic is the
`none` of `BitFlags.from_bits`. -/
def Cpu.pop_status_from_stack (cpu : Cpu) : Option Cpu := do
  let (v, c) ← cpu.stack_pop
  let s ← BitFlags.from_bits v
  pure { c with status := s }

/-- `update_zero_and_negative_flags`: `Zero := result == 0`,
`Negative := result & 0x80 != 0`. -/
def Cpu.update_zero_and_negative_flags (cpu : Cpu) (result : Nat) : Cpu :=
  let s := (cpu.status.set .Zero (decide (result = 0))).set .Negative
    (decide (result &&& CpuFlags.Negative.bits ≠ 0))
  { cpu with status := s }

/-- `set_register_a`: assign the accumulator, then update Zero/Negative from
it. -/
def Cpu.set_register_a (cpu : Cpu) (value : Nat) : Cpu :=
  Cpu.update_zero_and_negative_flags { cpu with register_a := value } value

/-- `add_to_register_a` (`src/emulator/src/cpu/mod.rs` lines 533-552):
`sum = A + value + carry` (computed in `u16`, no truncation);
`Carry := sum > 255`; `result = sum as u8`;
`Overflow := (value ^ result) & (result ^ A_before) & 0x80 != 0`;
then `set_register_a(result)`. -/
def Cpu.add_to_register_a (cpu : Cpu) (value : Nat) : Cpu :=
  let sum := cpu.register_a + value + (if cpu.status.contains .CarryBit then 1 else 0)
  let s1 := cpu.status.set .CarryBit (decide (sum > 255))
  let result := sum % 256
  let s2 := s1.set .Overflow
    (decide ((value ^^^ result) &&& (result ^^^ cpu.register_a) &&& 0x80 ≠ 0))
  Cpu.set_register_a { cpu with status := s2 } result

/-- `adc`: read the operand and feed it to `add_to_register_a`. -/
def Cpu.adc (cpu : Cpu) (mode : AddressingMode) : Option Cpu := do
  let addr ← cpu.get_operand_address mode
  let data ← cpu.mem_read addr
  pure (cpu.add_to_register_a data)

/-- The operand transformation of `sbc`:
`(data as i8).wrapping_neg().wrapping_sub(1) as u8`, i.e. `-data - 1` in
wrapping 8-bit arithmetic. -/
def Cpu.sbc_operand (data : Nat) : Nat :=
  ((256 - data % 256) % 256 + 255) % 256

/-- `sbc` (`src/emulator/src/cpu/mod.rs` lines 457-463): ADC of
`-operand - 1`. -/
def Cpu.sbc (cpu : Cpu) (mode : AddressingMode) : Option Cpu := do
  let addr ← cpu.get_operand_address mode
  let data ← cpu.mem_read addr
  pure (cpu.add_to_register_a (Cpu.sbc_operand data))

/-- Sign extension chain `x as i8 as u16` applied to a byte. -/
def as_i8_as_u16 (x : Nat) : Nat :=
  if x < 128 then x else 0xFF00 + x

/-- `branch` (`src/emulator/src/cpu/mod.rs` lines 230-243): when the condition
holds, read the signed displacement at the counter and set
`counter := counter.wrapping_add(1).wrapping_add(displacement as u16)`. -/
def Cpu.branch (cpu : Cpu) (condition : Bool) : Option Cpu :=
  if !condition then some cpu
  else do
    let jump ← cpu.mem_read cpu.program_counter
    pure { cpu with program_counter :=
      ((cpu.program_counter + 1) % 65536 + as_i8_as_u16 jump) % 65536 }

/-- `lda`. -/
def Cpu.lda (cpu : Cpu) (mode : AddressingMode) : Option Cpu := do
  let addr ← cpu.get_operand_address mode
  let value ← cpu.mem_read addr
  pure (cpu.set_register_a value)

/-- `ldy` (`src/emulator/src/cpu/mod.rs` lines 332-338), exactly as written in
the source: the loaded byte is assigned to `register_x`, and the
Zero/Negative update is computed from `register_y`. -/
def Cpu.ldy (cpu : Cpu) (mode : AddressingMode) : Option Cpu := do
  let addr ← cpu.get_operand_address mode
  let v ← cpu.mem_read addr
  pure (Cpu.update_zero_and_negative_flags { cpu with register_x := v } cpu.register_y)

/-- `sta`. -/
def Cpu.sta (cpu : Cpu) (mode : AddressingMode) : Option Cpu := do
  let addr ← cpu.get_operand_address mode
  cpu.mem_write addr cpu.register_a

/-- `inc` (`src/emulator/src/cpu/mod.rs` lines 297-301), exactly as written in
the source: `register_a = register_a.wrapping_add(1)` followed by the
Zero/Negative update; no memory access. -/
def Cpu.inc (cpu : Cpu) : Cpu :=
  Cpu.update_zero_and_negative_flags
    { cpu with register_a := (cpu.register_a + 1) % 256 } ((cpu.register_a + 1) % 256)

/-- `dec` (lines 272-276), exactly as written in the source:
`register_a = register_a.wrapping_sub(1)`; no memory access. -/
def Cpu.dec (cpu : Cpu) : Cpu :=
  Cpu.update_zero_and_negative_flags
    { cpu with register_a := (cpu.register_a + 255) % 256 } ((cpu.register_a + 255) % 256)

/-- `tax`. -/
def Cpu.tax (cpu : Cpu) : Cpu :=
  Cpu.update_zero_and_negative_flags { cpu with register_x := cpu.register_a } cpu.register_a

/-- `inx`. -/
def Cpu.inx (cpu : Cpu) : Cpu :=
  Cpu.update_zero_and_negative_flags
    { cpu with register_x := (cpu.register_x + 1) % 256 } ((cpu.register_x + 1) % 256)

/-- `RESET_ADDRESS` constant. -/
def RESET_ADDRESS : Nat := 0xFFFC

/-- `reset` (`src/emulator/src/cpu/mod.rs` lines 184-190): clears
`register_a`, clears `register_x`, resets the status flags, and loads the
program counter from the reset vector; `register_y`, the stack pointer and
memory are not touched. -/
def Cpu.reset (cpu : Cpu) : Option Cpu := do
  let pc ← cpu.mem_read_u16 RESET_ADDRESS
  pure { cpu with register_a := 0, register_x := 0, status := BitFlags.default,
                  program_counter := pc }

/-- Instruction mnemonics dispatched by `run_cycle_with_callback` (the subset
of the dispatch table that the verified claims exercise). -/
inductive Mnemonic where
  | ADC | BCC | BCS | BEQ | BMI | BNE | BPL | BVC | BVS | BRK
  | JMP | LDA | LDY | STA | SBC | INC | DEC | TAX | INX
deriving DecidableEq

/-- The static opcode descriptor `{code, repr, len, cycles, mode}`. -/
structure Opcode where
  code : Nat
  repr : Mnemonic
  len : Nat
  cycles : Nat
  mode : AddressingMode
deriving DecidableEq

/-- Modelled from the spec: the opcode table used by
`run_cycle_with_callback` lives in `src/emulator/src/cpu/opcode.rs`, which is
not present under `src/`. The `BRK`/`TAX`/`INX`/`LDA`/`STA`/`ADC` rows are
taken from the partial table in `src/src/opcodes.rs` (including its listing
of opcode `0x71` with the `IndirectX` mode); the remaining rows follow §3-§4.5
of the spec (a 3-byte `JMP`, 2-byte relative branches, 2-byte zero-page
`INC`/`DEC`/`LDY`/`SBC` forms) and the 6502 reference the source comments
link to. -/
def OPCODES : List Opcode := [
  ⟨0x00, .BRK, 1, 7, .NoneAddressing⟩,
  ⟨0xAA, .TAX, 1, 2, .NoneAddressing⟩,
  ⟨0xE8, .INX, 1, 2, .NoneAddressing⟩,
  ⟨0xA9, .LDA, 2, 2, .Immediate⟩,
  ⟨0xA5, .LDA, 2, 3, .ZeroPage⟩,
  ⟨0xB5, .LDA, 2, 4, .ZeroPageX⟩,
  ⟨0xAD, .LDA, 3, 4, .Absolute⟩,
  ⟨0xBD, .LDA, 3, 4, .AbsoluteX⟩,
  ⟨0xB9, .LDA, 3, 4, .AbsoluteY⟩,
  ⟨0xA1, .LDA, 2, 6, .IndirectX⟩,
  ⟨0xB1, .LDA, 2, 5, .IndirectY⟩,
  ⟨0x85, .STA, 2, 3, .ZeroPage⟩,
  ⟨0x95, .STA, 2, 4, .ZeroPageX⟩,
  ⟨0x8D, .STA, 3, 4, .Absolute⟩,
  ⟨0x9D, .STA, 3, 5, .AbsoluteX⟩,
  ⟨0x99, .STA, 3, 5, .AbsoluteY⟩,
  ⟨0x81, .STA, 2, 6, .IndirectX⟩,
  ⟨0x91, .STA, 2, 6, .IndirectY⟩,
  ⟨0x69, .ADC, 2, 2, .Immediate⟩,
  ⟨0x65, .ADC, 2, 3, .ZeroPage⟩,
  ⟨0x75, .ADC, 2, 4, .ZeroPageX⟩,
  ⟨0x6D, .ADC, 3, 4, .Absolute⟩,
  ⟨0x7D, .ADC, 3, 4, .AbsoluteX⟩,
  ⟨0x79, .ADC, 3, 4, .AbsoluteY⟩,
  ⟨0x61, .ADC, 2, 6, .IndirectX⟩,
  ⟨0x71, .ADC, 2, 5, .IndirectX⟩,
  ⟨0x90, .BCC, 2, 2, .NoneAddressing⟩,
  ⟨0xB0, .BCS, 2, 2, .NoneAddressing⟩,
  ⟨0xF0, .BEQ, 2, 2, .NoneAddressing⟩,
  ⟨0x30, .BMI, 2, 2, .NoneAddressing⟩,
  ⟨0xD0, .BNE, 2, 2, .NoneAddressing⟩,
  ⟨0x10, .BPL, 2, 2, .NoneAddressing⟩,
  ⟨0x50, .BVC, 2, 2, .NoneAddressing⟩,
  ⟨0x70, .BVS, 2, 2, .NoneAddressing⟩,
  ⟨0x4C, .JMP, 3, 3, .NoneAddressing⟩,
  ⟨0x6C, .JMP, 3, 5, .NoneAddressing⟩,
  ⟨0xA0, .LDY, 2, 2, .Immediate⟩,
  ⟨0xA4, .LDY, 2, 3, .ZeroPage⟩,
  ⟨0xE9, .SBC, 2, 2, .Immediate⟩,
  ⟨0xE6, .INC, 2, 5, .ZeroPage⟩,
  ⟨0xC6, .DEC, 2, 5, .ZeroPage⟩]

/-- `OPCODES_MAP` lookup: `get(&opcode)`, `None` on an illegal opcode (the
source `expect`s, i.e. panics). -/
def opcodes_lookup (code : Nat) : Option Opcode :=
  OPCODES.find? (fun o => o.code == code)

/-- The indirect-`JMP` target computation inlined in the `0x6C` arm of
`run_cycle_with_callback` (lines 105-125): when the pointer's low byte is
`0xFF`, the high byte is read from `mem_address & 0xFF00` (start of the same
page) instead of `mem_address + 1`. -/
def Cpu.jmp_indirect_ref (cpu : Cpu) (mem_address : Nat) : Option Nat :=
  if mem_address &&& 0x00FF = 0x00FF then do
    let lo ← cpu.mem_read mem_address
    let hi ← cpu.mem_read (mem_address &&& 0xFF00)
    pure ((hi <<< 8) ||| lo)
  else
    cpu.mem_read_u16 mem_address

/-- The result of one interpreter step. -/
inductive RunResult where
  | Running
  | Done
deriving DecidableEq

/-- The per-mnemonic arms of the `match opcode.repr` dispatch in
`run_cycle_with_callback` (the `BRK` arm returns early and is handled by
`run_cycle` itself). -/
def Cpu.execute (cpu : Cpu) (op : Opcode) : Option Cpu :=
  match op.repr with
  | .ADC => cpu.adc op.mode
  | .BCC => cpu.branch (!(cpu.status.contains .CarryBit))
  | .BCS => cpu.branch (cpu.status.contains .CarryBit)
  | .BEQ => cpu.branch (cpu.status.contains .Zero)
  | .BMI => cpu.branch (cpu.status.contains .Negative)
  | .BNE => cpu.branch (!(cpu.status.contains .Zero))
  | .BPL => cpu.branch (!(cpu.status.contains .Negative))
  | .BVC => cpu.branch (!(cpu.status.contains .Overflow))
  | .BVS => cpu.branch (cpu.status.contains .Overflow)
  | .BRK => some cpu
  | .JMP =>
      if op.code = 0x6C then do
        let mem_address ← cpu.mem_read_u16 cpu.program_counter
        let indirect_ref ← cpu.jmp_indirect_ref mem_address
        pure { cpu with program_counter := indirect_ref }
      else do
        let addr ← cpu.mem_read_u16 cpu.program_counter
        pure { cpu with program_counter := addr }
  | .LDA => cpu.lda op.mode
  | .LDY => cpu.ldy op.mode
  | .STA => cpu.sta op.mode
  | .SBC => cpu.sbc op.mode
  | .INC => some cpu.inc
  | .DEC => some cpu.dec
  | .TAX => some cpu.tax
  | .INX => some cpu.inx

/-- One fetch-decode-execute step of `run_cycle_with_callback` (with the
identity step hook): fetch the opcode byte, advance the counter by one, look
the opcode up (panic on an unknown byte), execute, and — except for the
early-returning `BRK` arm — unconditionally advance the counter by
`opcode.len - 1` afterwards (line 179). -/
def Cpu.run_cycle (cpu : Cpu) : Option (RunResult × Cpu) := do
  let opcode_byte ← cpu.mem_read cpu.program_counter
  let cpu1 : Cpu := { cpu with program_counter := (cpu.program_counter + 1) % 65536 }
  let op ← opcodes_lookup opcode_byte
  match op.repr with
  | .BRK => pure (RunResult.Done, cpu1)
  | _ => do
      let cpu2 ← cpu1.execute op
      pure (RunResult.Running,
        { cpu2 with program_counter := (cpu2.program_counter + (op.len - 1)) % 65536 })

/-- Modelled from the spec: the "direct subtract-with-borrow formulation"
that §4.5 requires `SBC` to agree with — `result = A - operand - (1 - CarryIn)`
in wrapping 8-bit arithmetic, `Carry` set iff no borrow occurs
(`operand + (1 - CarryIn) <= A`), `Overflow` by two's-complement sign-change
detection on the minuend, and Zero/Negative from the result. -/
def Cpu.sbc_direct (cpu : Cpu) (value : Nat) : Cpu :=
  let a := cpu.register_a
  let borrow := 1 - (if cpu.status.contains .CarryBit then 1 else 0)
  let result := (a + 512 - (value + borrow)) % 256
  let s1 := cpu.status.set .CarryBit (decide (value + borrow ≤ a))
  let s2 := s1.set .Overflow
    (decide ((a ^^^ value) &&& (a ^^^ result) &&& 0x80 ≠ 0))
  let s3 := (s2.set .Zero (decide (result = 0))).set .Negative
    (decide (result &&& 0x80 ≠ 0))
  { cpu with register_a := result, status := s3 }

lemma Cpu.mem_read_lt (cpu : Cpu) (addr : Nat) (h : addr < MEMORY_LEN) :
    cpu.mem_read addr = some (cpu.memory addr) := by
  simp [Cpu.mem_read, h]

lemma Cpu.mem_write_lt (cpu : Cpu) (addr data : Nat) (h : addr < MEMORY_LEN) :
    cpu.mem_write addr data =
      some { cpu with memory := fun a => if a = addr then data else cpu.memory a } := by
  simp [Cpu.mem_write, h]

lemma and128_ne_zero (x : Nat) : (x &&& 128 ≠ 0) ↔ x.testBit 7 = true := by
  have h : x &&& 128 = (x.testBit 7).toNat * 128 := by
    have h2 := Nat.and_two_pow x 7
    norm_num at h2
    exact h2
  rw [h]
  cases hb : x.testBit 7 <;> simp

lemma and_and_128_ne_zero (x y : Nat) :
    ((x &&& y) &&& 128 ≠ 0) ↔ ((x &&& 128 ≠ 0) ∧ (y &&& 128 ≠ 0)) := by
  rw [and128_ne_zero, and128_ne_zero, and128_ne_zero, Nat.testBit_and]
  cases x.testBit 7 <;> cases y.testBit 7 <;> simp

lemma xor_testBit7 (x y : Nat) :
    ((x ^^^ y) &&& 128 ≠ 0) ↔ x.testBit 7 ≠ y.testBit 7 := by
  rw [and128_ne_zero, Nat.testBit_xor]
  cases x.testBit 7 <;> cases y.testBit 7 <;> simp

lemma testBit7_of_lt_256 (x : Nat) (h : x < 256) : x.testBit 7 = decide (128 ≤ x) := by
  rw [Nat.testBit_to_div_mod]
  rcases Nat.lt_or_ge x 128 with h1 | h1
  · have hd : x / 128 = 0 := Nat.div_eq_of_lt h1
    simp [hd]
    omega
  · have hd : x / 128 = 1 := by omega
    simp [hd]
    omega

lemma hi_shift_or_lo (d : Nat) (h : d < 65536) : ((d >>> 8) <<< 8) ||| (d &&& 0xff) = d := by
  have h1 : d >>> 8 = d / 256 := by
    rw [Nat.shiftRight_eq_div_pow]
  have h2 : d &&& 0xff = d % 256 := by
    have h3 := Nat.and_pow_two_sub_one_eq_mod d 8
    norm_num at h3
    exact h3
  have h4 : (d / 256) <<< 8 = 256 * (d / 256) := by
    rw [Nat.shiftLeft_eq]
    ring
  have h5 : d % 256 < 2 ^ 8 := by
    have h6 : d % 256 < 256 := Nat.mod_lt d (by norm_num)
    omega
  rw [h1, h2, h4, ← Nat.mul_add_lt_is_or h5]
  omega

lemma decide_and128_eq_zero (x : Nat) : decide (x &&& 128 = 0) = !(x.testBit 7) := by
  have h := and128_ne_zero x
  cases hb : x.testBit 7 <;> simp [hb] at h <;> simp [h]

lemma and_255_of_lt (b : Nat) (h : b < 256) : b &&& 255 = b := by
  have h2 := Nat.and_pow_two_sub_one_eq_mod b 8
  norm_num at h2
  rw [h2]
  omega

lemma stack_push_eq (cpu : Cpu) (data : Nat) (h : cpu.stack_pointer < 256) :
    cpu.stack_push data =
      some { cpu with
              memory := fun a => if a = 0x0100 + cpu.stack_pointer then data else cpu.memory a,
              stack_pointer := (cpu.stack_pointer + 255) % 256 } := by
  simp [Cpu.stack_push,
    Cpu.mem_write_lt cpu (0x0100 + cpu.stack_pointer) data (by unfold MEMORY_LEN; omega)]

lemma stack_pop_eq (cpu : Cpu) :
    cpu.stack_pop =
      some (cpu.memory (0x0100 + (cpu.stack_pointer + 1) % 256),
        { cpu with stack_pointer := (cpu.stack_pointer + 1) % 256 }) := by
  have hlt : 0x0100 + (cpu.stack_pointer + 1) % 256 < MEMORY_LEN := by
    unfold MEMORY_LEN
    omega
  simp [Cpu.stack_pop]
  simp [Cpu.mem_read_lt _ _ hlt]

lemma stack_push_list_sp (l : List Nat) : ∀ cpu : Cpu, cpu.stack_pointer < 256 →
    ∃ c, cpu.stack_push_list l = some c ∧
      c.stack_pointer = (cpu.stack_pointer + 255 * l.length) % 256 := by
  induction l with
  | nil =>
      intro cpu h
      refine ⟨cpu, rfl, ?_⟩
      simp
      omega
  | cons d rest ih =>
      intro cpu h
      obtain ⟨c, hc, hspc⟩ := ih
        { cpu with
            memory := fun a => if a = 0x0100 + cpu.stack_pointer then d else cpu.memory a,
            stack_pointer := (cpu.stack_pointer + 255) % 256 }
        (by simp; omega)
      refine ⟨c, ?_, ?_⟩
      · simp [Cpu.stack_push_list, stack_push_eq cpu d h, hc]
      · rw [hspc]
        simp
        omega

/-- Memory for the C1 scenario: a `JMP ($30FF)` instruction (opcode `0x6C`)
at `0x0600`, with `0x30FF = 0x40`, `0x3000 = 0x80`, `0x3100 = 0x50`. -/
def c1mem : Nat → Nat := fun a =>
  if a = 0x0600 then 0x6C else if a = 0x0601 then 0xFF else if a = 0x0602 then 0x30
  else if a = 0x30FF then 0x40 else if a = 0x3000 then 0x80 else if a = 0x3100 then 0x50
  else 0

/-- CPU state about to execute the C1 `JMP ($30FF)`. -/
def c1cpu : Cpu :=
  { register_a := 0, register_x := 0, register_y := 0, status := BitFlags.default,
    program_counter := 0x0600, stack_pointer := 0xFD, memory := c1mem }

/-- C1 (corrected): the `0x6C` arm does reproduce the page-boundary bug — for
every pointer whose low byte is `0xFF`, the target's low byte is read at the
pointer and its high byte at the start of the same page (`p &&& 0xFF00`), not
the next page. Concretely, for the claimed state (`0x30FF = 0x40`,
`0x3000 = 0x80`, `0x3100 = 0x50`) the buggy indirect target is `0x8040`
(high byte `0x80` from `0x3000`), not the claimed `0x4080`, and one full
`run_cycle` step leaves the counter at `0x8042` because the dispatcher then
unconditionally advances by `byte_length - 1 = 2`. -/
theorem c1_jmp_indirect_page_bug (cpu : Cpu) (p : Nat)
    (hp : p &&& 0x00FF = 0x00FF) (hlt : p < MEMORY_LEN) :
    cpu.jmp_indirect_ref p = some ((cpu.memory (p &&& 0xFF00) <<< 8) ||| cpu.memory p) ∧
    c1cpu.jmp_indirect_ref 0x30FF = some 0x8040 ∧
    (c1cpu.run_cycle).map (fun pr => pr.2.program_counter) = some 0x8042 := by
  have hhi : p &&& 0xFF00 < MEMORY_LEN := Nat.lt_of_le_of_lt Nat.and_le_left hlt
  refine ⟨?_, by decide, by decide⟩
  simp [Cpu.jmp_indirect_ref, hp, Cpu.mem_read_lt _ _ hlt, Cpu.mem_read_lt _ _ hhi]

/-- C1 witness: the hypotheses of `c1_jmp_indirect_page_bug` hold at the
claim's own pointer `0x30FF`. -/
theorem c1_jmp_indirect_page_bug_witness :
    (0x30FF &&& 0x00FF = 0x00FF) ∧ (0x30FF < MEMORY_LEN) ∧
    (c1cpu.jmp_indirect_ref 0x30FF =
      some ((c1cpu.memory (0x30FF &&& 0xFF00) <<< 8) ||| c1cpu.memory 0x30FF) ∧
    c1cpu.jmp_indirect_ref 0x30FF = some 0x8040 ∧
    (c1cpu.run_cycle).map (fun pr => pr.2.program_counter) = some 0x8042) :=
  ⟨by decide, by decide, c1_jmp_indirect_page_bug c1cpu 0x30FF (by decide) (by decide)⟩

/-- C1 counterexample: at the claim's own state, executing `JMP ($30FF)` does
NOT leave the program counter at `0x4080`; it leaves it at `0x8042`. -/
theorem c1_jmp_indirect_page_bug_counterexample :
    (c1cpu.run_cycle).map (fun pr => pr.2.program_counter) ≠ some 0x4080 ∧
    (c1cpu.run_cycle).map (fun pr => pr.2.program_counter) = some 0x8042 := by
  constructor
  · decide
  · decide

/-- C2: `add_to_register_a` (the ADC executor) sets the accumulator to
`(A + v + carry) mod 256`, Carry iff the 9-bit sum exceeds 255, Overflow iff
`(v XOR result) AND (result XOR old A) AND 0x80` is nonzero, Zero iff the
result is zero, and Negative iff bit 7 of the result is set. -/
theorem c2_adc_flags (cpu : Cpu) (v : Nat)
    (ha : cpu.register_a < 256) (hv : v < 256) :
    cpu.add_to_register_a v =
      { cpu with
          register_a := (cpu.register_a + v + (if cpu.status.carryBit then 1 else 0)) % 256,
          status := { cpu.status with
            carryBit := decide
              (cpu.register_a + v + (if cpu.status.carryBit then 1 else 0) > 255),
            overflow := decide
              ((v ^^^ (cpu.register_a + v + (if cpu.status.carryBit then 1 else 0)) % 256) &&&
                ((cpu.register_a + v + (if cpu.status.carryBit then 1 else 0)) % 256 ^^^
                  cpu.register_a) &&& 0x80 ≠ 0),
            zero := decide
              ((cpu.register_a + v + (if cpu.status.carryBit then 1 else 0)) % 256 = 0),
            negative :=
              ((cpu.register_a + v + (if cpu.status.carryBit then 1 else 0)) % 256).testBit
                7 } } := by
  simp only [Cpu.add_to_register_a, Cpu.set_register_a, Cpu.update_zero_and_negative_flags,
    BitFlags.set, BitFlags.contains, CpuFlags.bits]
  ext <;> simp
  rw [decide_and128_eq_zero]

/-- CPU state for the C2 boundary case: `A = 0xFF`, CarryIn = 0. -/
def c2cpu : Cpu :=
  { register_a := 0xFF, register_x := 0, register_y := 0, status := BitFlags.default,
    program_counter := 0, stack_pointer := 0, memory := fun _ => 0 }

/-- C2 witness: `0xFF + 0x01` with CarryIn = 0 gives result `0x00`, Carry = 1,
Zero = 1, Overflow = 0, Negative = 0. -/
theorem c2_adc_flags_witness :
    c2cpu.register_a < 256 ∧ (1 : Nat) < 256 ∧
    (c2cpu.add_to_register_a 1).register_a = 0x00 ∧
    (c2cpu.add_to_register_a 1).status.carryBit = true ∧
    (c2cpu.add_to_register_a 1).status.zero = true ∧
    (c2cpu.add_to_register_a 1).status.overflow = false ∧
    (c2cpu.add_to_register_a 1).status.negative = false := by
  have h := c2_adc_flags c2cpu 1 (by decide) (by decide)
  refine ⟨by decide, by decide, ?_, ?_, ?_, ?_, ?_⟩ <;> rw [h] <;> decide

/-- C3 (code bug): the backing array has `u16::MAX` = 65535 entries, one byte
short of the 64KB address space, so `mem_read`/`mem_write` at address
`0xFFFF` index out of bounds (a panic, `none` here) while every lower
address succeeds. -/
theorem c3_memory_not_total :
    Cpu.default.mem_read 0xFFFF = none ∧
    Cpu.default.mem_write 0xFFFF 0 = none ∧
    Cpu.default.mem_read 0xFFFE = some 0 ∧
    Cpu.default.mem_write 0xFFFE 7 =
      some { Cpu.default with
              memory := fun a => if a = 0xFFFE then 7 else Cpu.default.memory a } := by
  refine ⟨rfl, rfl, rfl, rfl⟩

/-- C4: the `sbc` executor's operand trick (`ADC` of `-operand - 1`, i.e.
`add_to_register_a (sbc_operand v)`) produces exactly the same accumulator
and the same Carry/Overflow/Zero/Negative flags as the direct
subtract-with-borrow formulation `A - v - (1 - CarryIn)`. -/
theorem c4_sbc_equiv (cpu : Cpu) (v : Nat)
    (ha : cpu.register_a < 256) (hv : v < 256) :
    cpu.add_to_register_a (Cpu.sbc_operand v) = cpu.sbc_direct v := by
  have hw : Cpu.sbc_operand v = 255 - v := by
    unfold Cpu.sbc_operand
    omega
  rw [hw]
  simp only [Cpu.add_to_register_a, Cpu.sbc_direct, Cpu.set_register_a,
    Cpu.update_zero_and_negative_flags, BitFlags.set, BitFlags.contains, CpuFlags.bits]
  by_cases hc : cpu.status.carryBit = true
  · simp only [hc, if_true]
    ext <;> simp
    · omega
    · omega
    · omega
    · rw [← not_iff_not]
      simp only [← ne_eq]
      rw [and_and_128_ne_zero, and_and_128_ne_zero, xor_testBit7, xor_testBit7,
        xor_testBit7, xor_testBit7]
      rw [testBit7_of_lt_256 (255 - v) (by omega),
        testBit7_of_lt_256 ((cpu.register_a + (255 - v) + 1) % 256) (by omega),
        testBit7_of_lt_256 cpu.register_a ha, testBit7_of_lt_256 v hv,
        testBit7_of_lt_256 ((cpu.register_a + 512 - v) % 256) (by omega)]
      simp only [ne_eq, decide_eq_decide]
      omega
    · have hr : (cpu.register_a + (255 - v) + 1) % 256 = (cpu.register_a + 512 - v) % 256 := by
        omega
      rw [hr]
  · simp only [hc, if_false]
    ext <;> simp
    · omega
    · omega
    · omega
    · rw [← not_iff_not]
      simp only [← ne_eq]
      rw [and_and_128_ne_zero, and_and_128_ne_zero, xor_testBit7, xor_testBit7,
        xor_testBit7, xor_testBit7]
      rw [testBit7_of_lt_256 (255 - v) (by omega),
        testBit7_of_lt_256 ((cpu.register_a + (255 - v)) % 256) (by omega),
        testBit7_of_lt_256 cpu.register_a ha, testBit7_of_lt_256 v hv,
        testBit7_of_lt_256 ((cpu.register_a + 511 - v) % 256) (by omega)]
      simp only [ne_eq, decide_eq_decide]
      omega
    · have hr : (cpu.register_a + (255 - v)) % 256 = (cpu.register_a + 511 - v) % 256 := by
        omega
      rw [hr]

/-- CPU state for the C4 witness: `A = 0x40`, CarryIn = 0. -/
def c4cpu : Cpu :=
  { register_a := 0x40, register_x := 0, register_y := 0, status := BitFlags.default,
    program_counter := 0, stack_pointer := 0, memory := fun _ => 0 }

/-- C4 witness: the equivalence instantiated at `A = 0x40`, `v = 0x10`,
CarryIn = 0. -/
theorem c4_sbc_equiv_witness :
    c4cpu.register_a < 256 ∧ (0x10 : Nat) < 256 ∧
    c4cpu.add_to_register_a (Cpu.sbc_operand 0x10) = c4cpu.sbc_direct 0x10 :=
  ⟨by decide, by decide, c4_sbc_equiv c4cpu 0x10 (by decide) (by decide)⟩

/-- Memory for the C5 scenario: `BEQ +5` (opcode `0xF0`, displacement `0x05`)
at `0x0600`. -/
def c5mem : Nat → Nat := fun a =>
  if a = 0x0600 then 0xF0 else if a = 0x0601 then 0x05 else 0

/-- CPU about to execute the taken `BEQ +5` (Zero flag set). -/
def c5cpu : Cpu :=
  { register_a := 0, register_x := 0, register_y := 0,
    status := { BitFlags.default with zero := true },
    program_counter := 0x0600, stack_pointer := 0xFD, memory := c5mem }

/-- The same state with the Zero flag clear (branch not taken). -/
def c5cpu_untaken : Cpu := { c5cpu with status := BitFlags.default }

/-- The taken-branch state with a negative displacement `0xFB` (= -5). -/
def c5cpu_neg : Cpu :=
  { c5cpu with memory := fun a => if a = 0x0600 then 0xF0 else if a = 0x0601 then 0xFB else 0 }

/-- C5 (code bug): a taken `BEQ` at `0x0600` with displacement `0x05` leaves
the counter at `0x0608`, not at the claimed `0x0601 + 1 + 0x05 = 0x0607`,
because line 179 unconditionally adds `byte_length - 1` even after the branch
rewrote the counter; a non-taken branch correctly advances to `0x0602`, and a
taken displacement `0xFB` (= -5) lands at `0x05FE` instead of `0x05FD`. -/
theorem c5_branch_step :
    (c5cpu.run_cycle).map (fun pr => pr.2.program_counter) = some 0x0608 ∧
    (c5cpu.run_cycle).map (fun pr => pr.2.program_counter) ≠ some 0x0607 ∧
    (c5cpu_untaken.run_cycle).map (fun pr => pr.2.program_counter) = some 0x0602 ∧
    (c5cpu_neg.run_cycle).map (fun pr => pr.2.program_counter) = some 0x05FE ∧
    (c5cpu_neg.run_cycle).map (fun pr => pr.2.program_counter) ≠ some 0x05FD := by
  refine ⟨by decide, by decide, by decide, by decide, by decide⟩

/-- CPU state for the C6 counterexample: every register holds a nonzero prior
value. -/
def c6cpu : Cpu :=
  { register_a := 7, register_x := 1, register_y := 3,
    status := { BitFlags.default with carryBit := true },
    program_counter := 0x1234, stack_pointer := 0x77, memory := fun _ => 0 }

/-- C6 (corrected): `reset` clears the accumulator, clears `register_x` (the
claim wrongly says X keeps its prior value), resets the status flags, and
loads the counter from the little-endian reset vector at `0xFFFC`/`0xFFFD`;
the stack pointer, `register_y` and memory are left untouched. -/
theorem c6_reset_effect (cpu : Cpu) :
    cpu.reset =
      some { cpu with
              register_a := 0,
              register_x := 0,
              status := BitFlags.default,
              program_counter := cpu.memory 0xFFFC + 256 * cpu.memory 0xFFFD } := by
  simp [Cpu.reset, Cpu.mem_read_u16, Cpu.mem_read, RESET_ADDRESS, MEMORY_LEN]

/-- C6 counterexample: starting from `register_x = 1`, `reset` sets
`register_x` to 0 — X does not keep its prior value. -/
theorem c6_reset_counterexample :
    (c6cpu.reset).map (fun c => c.register_x) = some 0 ∧ c6cpu.register_x = 1 := by
  refine ⟨by decide, by decide⟩

/-- Memory for the C7 scenario: `INC $20` (opcode `0xE6`, zero-page operand
`0x20`) at `0x0600`, with `0x0020 = 0x05`. -/
def c7mem : Nat → Nat := fun a =>
  if a = 0x0600 then 0xE6 else if a = 0x0601 then 0x20 else if a = 0x20 then 0x05 else 0

/-- CPU about to execute `INC $20` with `A = 0x10`. -/
def c7cpu : Cpu :=
  { register_a := 0x10, register_x := 0, register_y := 0, status := BitFlags.default,
    program_counter := 0x0600, stack_pointer := 0xFD, memory := c7mem }

/-- The same state with a `DEC $20` opcode (`0xC6`) instead. -/
def c7deccpu : Cpu :=
  { c7cpu with memory := fun a => if a = 0x0600 then 0xC6 else c7mem a }

/-- C7 (code bug): executing `INC $20` leaves the byte at the effective
address `0x0020` unchanged (`0x05`, not `0x06`) and instead increments the
accumulator (`0x10` to `0x11`); `DEC $20` likewise decrements the
accumulator to `0x0F` and leaves memory untouched. -/
theorem c7_inc_dec_accumulator :
    (c7cpu.run_cycle).map
        (fun pr => (pr.2.register_a, pr.2.memory 0x20, pr.2.program_counter)) =
      some (0x11, 0x05, 0x0602) ∧
    (c7cpu.run_cycle).map (fun pr => pr.2.memory 0x20) ≠ some 0x06 ∧
    (c7cpu.run_cycle).map (fun pr => pr.2.register_a) ≠ some 0x10 ∧
    (c7deccpu.run_cycle).map
        (fun pr => (pr.2.register_a, pr.2.memory 0x20, pr.2.program_counter)) =
      some (0x0F, 0x05, 0x0602) := by
  refine ⟨by decide, by decide, by decide, by decide⟩

/-- C8: stack operations round-trip within the `0x0100` page — for every
starting stack pointer (including wrap-around) and every 16-bit value `d`,
`stack_push_u16 d` followed by `stack_pop_u16` returns `d` and restores the
stack pointer, and pushing any 256 bytes in sequence returns the pointer to
its starting value. -/
theorem c8_stack_roundtrip (cpu : Cpu) (d : Nat)
    (hsp : cpu.stack_pointer < 256) (hd : d < 65536) :
    (∃ c1 r, cpu.stack_push_u16 d = some c1 ∧ c1.stack_pop_u16 = some r ∧
      r.1 = d ∧ r.2.stack_pointer = cpu.stack_pointer) ∧
    (∀ l : List Nat, l.length = 256 →
      ∃ c3, cpu.stack_push_list l = some c3 ∧ c3.stack_pointer = cpu.stack_pointer) := by
  constructor
  · have h1 := stack_push_eq cpu (d >>> 8) hsp
    have h2 := stack_push_eq
      { cpu with
          memory := fun a => if a = 0x0100 + cpu.stack_pointer then d >>> 8 else cpu.memory a,
          stack_pointer := (cpu.stack_pointer + 255) % 256 }
      (d &&& 255) (by simp; omega)
    have hpush : cpu.stack_push_u16 d = some
        { cpu with
            memory := fun a =>
              if a = 0x0100 + (cpu.stack_pointer + 255) % 256 then d &&& 255
              else if a = 0x0100 + cpu.stack_pointer then d >>> 8 else cpu.memory a,
            stack_pointer := ((cpu.stack_pointer + 255) % 256 + 255) % 256 } := by
      simp [Cpu.stack_push_u16, h1, h2]
    have hA : (((cpu.stack_pointer + 255) % 256 + 255) % 256 + 1) % 256
        = (cpu.stack_pointer + 255) % 256 := by omega
    have hB : ((cpu.stack_pointer + 255) % 256 + 1) % 256 = cpu.stack_pointer := by omega
    have hNe : cpu.stack_pointer ≠ (cpu.stack_pointer + 255) % 256 := by omega
    have hc1 : (cpu.stack_pointer + 255 + 255 + 1 + 1) % 256 = cpu.stack_pointer := by omega
    have hc2 : ¬((cpu.stack_pointer + 255 + 255 + 1 + 1) % 256
        = (cpu.stack_pointer + 255) % 256) := by omega
    have hc3 : (cpu.stack_pointer + 255 + 255 + 1) % 256 = (cpu.stack_pointer + 255) % 256 := by
      omega
    have hpop : (({ cpu with
        memory := fun a =>
          if a = 0x0100 + (cpu.stack_pointer + 255) % 256 then d &&& 255
          else if a = 0x0100 + cpu.stack_pointer then d >>> 8 else cpu.memory a,
        stack_pointer := ((cpu.stack_pointer + 255) % 256 + 255) % 256 } : Cpu).stack_pop_u16)
        = some (d, { cpu with
            memory := fun a =>
              if a = 0x0100 + (cpu.stack_pointer + 255) % 256 then d &&& 255
              else if a = 0x0100 + cpu.stack_pointer then d >>> 8 else cpu.memory a,
            stack_pointer := cpu.stack_pointer }) := by
      simp [Cpu.stack_pop_u16, stack_pop_eq, hA, hB, hc1, hc2, hc3, hNe, hi_shift_or_lo d hd]
    exact ⟨_, _, hpush, hpop, rfl, rfl⟩
  · intro l hl
    obtain ⟨c3, h3, hsp3⟩ := stack_push_list_sp l cpu hsp
    refine ⟨c3, h3, ?_⟩
    rw [hsp3, hl]
    omega

/-- CPU state for the C8 witness (stack pointer `0xFD`, zeroed memory). -/
def c8cpu : Cpu :=
  { register_a := 0, register_x := 0, register_y := 0, status := BitFlags.default,
    program_counter := 0, stack_pointer := 0xFD, memory := fun _ => 0 }

/-- C8 witness: the round trip instantiated at stack pointer `0xFD` and value
`0xABCD`. -/
theorem c8_stack_roundtrip_witness :
    c8cpu.stack_pointer < 256 ∧ (0xABCD : Nat) < 65536 ∧
    ((∃ c1 r, c8cpu.stack_push_u16 0xABCD = some c1 ∧ c1.stack_pop_u16 = some r ∧
      r.1 = 0xABCD ∧ r.2.stack_pointer = c8cpu.stack_pointer) ∧
    (∀ l : List Nat, l.length = 256 →
      ∃ c3, c8cpu.stack_push_list l = some c3 ∧ c3.stack_pointer = c8cpu.stack_pointer)) :=
  ⟨by decide, by decide, c8_stack_roundtrip c8cpu 0xABCD (by decide) (by decide)⟩

/-- CPU state for the C9 witness (zeroed memory). -/
def c9cpu : Cpu :=
  { register_a := 0, register_x := 0, register_y := 0, status := BitFlags.default,
    program_counter := 0, stack_pointer := 0xFD, memory := fun _ => 0 }

/-- C9: restoring the status register from a popped byte always succeeds —
every byte `0x00..=0xFF` passes `from_bits` (all eight bit positions carry a
named flag, so the out-of-mask failure branch is unreachable), and
`pop_status_from_stack` succeeds on any state whose memory holds bytes. -/
theorem c9_flags_restore (b : Nat) (hb : b < 256) (cpu : Cpu)
    (hm : ∀ a, cpu.memory a < 256) :
    BitFlags.from_bits b = some (BitFlags.ofBits b) ∧
    (cpu.pop_status_from_stack).isSome = true := by
  have hmask : CpuFlags.allBitsMask = 255 := by decide
  constructor
  · simp [BitFlags.from_bits, hmask, and_255_of_lt b hb]
  · simp [Cpu.pop_status_from_stack, stack_pop_eq, BitFlags.from_bits, hmask,
      and_255_of_lt _ (hm (0x0100 + (cpu.stack_pointer + 1) % 256))]

/-- C9 witness: the all-ones flag byte `0xFF` deserializes, and the pop path
succeeds on a concrete state. -/
theorem c9_flags_restore_witness :
    (0xFF : Nat) < 256 ∧
    (BitFlags.from_bits 0xFF = some (BitFlags.ofBits 0xFF) ∧
      (c9cpu.pop_status_from_stack).isSome = true) :=
  ⟨by decide, c9_flags_restore 0xFF (by decide) c9cpu
    (by intro a; show (0 : Nat) < 256; decide)⟩

/-- CPU state for the C10 witness: `Y = 0x99`, an `LDY #$42` operand byte at
the counter. -/
def c10cpu : Cpu :=
  { register_a := 0, register_x := 0, register_y := 0x99, status := BitFlags.default,
    program_counter := 0x10, stack_pointer := 0, memory := fun a => if a = 0x10 then 0x42 else 0 }

/-- C10: the `ldy` executor writes the loaded byte into `register_x` (not Y),
leaves `register_y` unchanged, and computes the Zero/Negative update from
`register_y` rather than from the loaded value. -/
theorem c10_ldy_writes_x (cpu : Cpu) (mode : AddressingMode) (addr v : Nat)
    (h1 : cpu.get_operand_address mode = some addr)
    (h2 : cpu.mem_read addr = some v) :
    cpu.ldy mode =
      some { cpu with
              register_x := v,
              status := (cpu.status.set .Zero (decide (cpu.register_y = 0))).set .Negative
                (decide (cpu.register_y &&& 128 ≠ 0)) } := by
  simp [Cpu.ldy, h1, h2, Cpu.update_zero_and_negative_flags, CpuFlags.bits]

/-- C10 witness: `LDY` with immediate operand `0x42` and `Y = 0x99` puts
`0x42` in X, leaves Y at `0x99`, and flags reflect `Y`, not the loaded
value. -/
theorem c10_ldy_writes_x_witness :
    c10cpu.get_operand_address .Immediate = some 0x10 ∧
    c10cpu.mem_read 0x10 = some 0x42 ∧
    c10cpu.ldy .Immediate =
      some { c10cpu with
              register_x := 0x42,
              status := (c10cpu.status.set .Zero (decide (c10cpu.register_y = 0))).set .Negative
                (decide (c10cpu.register_y &&& 128 ≠ 0)) } ∧
    (c10cpu.ldy .Immediate).map (fun c => c.register_y) = some 0x99 ∧
    (c10cpu.ldy .Immediate).map (fun c => c.status.negative) = some true :=
  ⟨rfl, rfl, c10_ldy_writes_x c10cpu .Immediate 0x10 0x42 rfl rfl, by decide, by decide⟩
